import Mathlib

/-!
Verification of the WebInspector connection/registry/routing subsystem.

Shallow embedding of:
- `src/bridge/server.js` — subscriber registry (`handleSubscriberConnection`),
  target arbitration (`selectTargetClient`), browser dispatch
  (`handleBrowserConnection`), and port retry (`createServer` / `main`);
- `src/bridge/mcp-server.mjs` — listener-side connection lifecycle
  (`connectToBridge`, `scheduleReconnect`, `shutdown`);
- the userscript `Transport` module — producer-side connection lifecycle
  (`connect`, `scheduleReconnect`, `disconnect`).

JavaScript `Map` objects are embedded as association lists preserving
insertion order (a re-`set` of an existing key keeps its position, as in JS);
`Date.now()` values are passed in explicitly as `Int` timestamps; transports
are identified by numeric ids; `stdout` router messages are modelled as an
explicit log list so that emitted decline reasons are observable.
-/

/-- Prefix test on character lists (helper for the JS `String.includes`). -/
def leadMatch : List Char → List Char → Bool
  | [], _ => true
  | _ :: _, [] => false
  | a :: as, b :: bs => a = b && leadMatch as bs

/-- Occurrence test of `needle` anywhere inside `hay`. -/
def subMatch (needle : List Char) : List Char → Bool
  | [] => needle.isEmpty
  | b :: bs => leadMatch needle (b :: bs) || subMatch needle bs

/-- JS `hay.includes(needle)`. -/
def jsIncludes (hay needle : String) : Bool :=
  subMatch needle.toList hay.toList

/-- One subscriber record of the bridge registry
(`subscribers` map of `server.js`): `ws` is the transport id. -/
structure Client where
  ws : Nat
  projectPath : String
  projectName : String
  tty : String
  pid : Nat
  lastHeartbeat : Int
deriving DecidableEq, Repr

/-- JS `Map.set`: replace in place when the key is present (JS maps keep the
original insertion position on re-set), append otherwise. -/
def mapSet (k : String) (v : Client) : List (String × Client) → List (String × Client)
  | [] => [(k, v)]
  | (k', v') :: rest =>
      if k' = k then (k, v) :: rest else (k', v') :: mapSet k v rest

/-- JS `Map.get`. -/
def mapGet (k : String) : List (String × Client) → Option Client
  | [] => none
  | (k', v) :: rest => if k' = k then some v else mapGet k rest

/-- JS `Map.delete`. -/
def mapDelete (k : String) : List (String × Client) → List (String × Client)
  | [] => []
  | (k', v) :: rest =>
      if k' = k then rest else (k', v) :: mapDelete k rest

/-- In-place value mutation of a present key
(the heartbeat handler mutates the record it got from `Map.get`). -/
def mapUpdate (k : String) (f : Client → Client) : List (String × Client) → List (String × Client)
  | [] => []
  | (k', v) :: rest =>
      if k' = k then (k', f v) :: rest else (k', v) :: mapUpdate k f rest

/-- Key list of the registry. -/
def subKeys (m : List (String × Client)) : List String := m.map Prod.fst

/-- A message arriving on a subscriber connection, after the JSON parse
attempt of `handleSubscriberConnection`: `malformed` is a parse failure,
`other` a parsed payload whose `type` is neither register nor heartbeat. -/
inductive SubMsg where
  | register (clientId projectPath projectName tty : String) (pid : Nat)
  | heartbeat (clientId : String)
  | malformed
  | other
deriving DecidableEq, Repr

/-- The record built by the register branch of `handleSubscriberConnection`
(`payload.projectName || 'Unknown'`, `payload.tty || 'unknown'`,
`lastHeartbeat: Date.now()`). -/
def mkRegClient (conn : Nat) (pp pn tty : String) (pid : Nat) (now : Int) : Client :=
  { ws := conn
    projectPath := pp
    projectName := if pn = "" then "Unknown" else pn
    tty := if tty = "" then "unknown" else tty
    pid := pid
    lastHeartbeat := now }

/-- Bridge-side state: the `subscribers` map plus, for each subscriber
connection, the connection-local `clientId` variable of its
`handleSubscriberConnection` closure (`none` = still `null`). -/
structure BridgeState where
  subscribers : List (String × Client)
  locals : Nat → Option String

/-- Fresh bridge: empty registry, every connection's local `clientId` null. -/
def bridgeInit : BridgeState :=
  { subscribers := [], locals := fun _ => none }

/-- The `message` handler of `handleSubscriberConnection`, for a message
arriving on connection `conn` at time `now`. -/
def onSubMessage (conn : Nat) (now : Int) (msg : SubMsg) (s : BridgeState) : BridgeState :=
  match msg with
  | .register cid pp pn tty pid =>
      { subscribers := mapSet cid (mkRegClient conn pp pn tty pid now) s.subscribers
        locals := fun c => if c = conn then some cid else s.locals c }
  | .heartbeat cid =>
      { s with subscribers :=
          mapUpdate cid (fun cl => { cl with lastHeartbeat := now }) s.subscribers }
  | .malformed => s
  | .other => s

/-- The `close` handler of `handleSubscriberConnection`: delete the entry for
the connection-local `clientId` when that local is truthy and the key is
present — the guard checks only key presence, not transport identity. -/
def onSubClose (conn : Nat) (s : BridgeState) : BridgeState :=
  match s.locals conn with
  | some cid =>
      if cid ≠ "" ∧ (mapGet cid s.subscribers).isSome then
        { s with subscribers := mapDelete cid s.subscribers }
      else s
  | none => s

/-- An observable event on the subscriber endpoint. -/
inductive BridgeEvent where
  | message (conn : Nat) (now : Int) (msg : SubMsg)
  | closeConn (conn : Nat)
deriving DecidableEq, Repr

/-- One bridge step. -/
def bridgeStep (e : BridgeEvent) (s : BridgeState) : BridgeState :=
  match e with
  | .message conn now msg => onSubMessage conn now msg s
  | .closeConn conn => onSubClose conn s

/-- Run a sequence of subscriber-endpoint events. -/
def bridgeRun (evs : List BridgeEvent) (s : BridgeState) : BridgeState :=
  evs.foldl (fun st e => bridgeStep e st) s

lemma mem_subKeys_mapSet {k x : String} {v : Client} {m : List (String × Client)}
    (h : x ∈ subKeys (mapSet k v m)) : x = k ∨ x ∈ subKeys m := by
  induction m with
  | nil => simpa [mapSet, subKeys] using h
  | cons p rest ih =>
      obtain ⟨k', v'⟩ := p
      by_cases hk : k' = k
      · simpa [mapSet, hk, subKeys] using h
      · simp only [mapSet, hk, if_false, subKeys, List.map_cons, List.mem_cons] at h ⊢
        rcases h with h | h
        · exact Or.inr (Or.inl h)
        · rcases ih h with h' | h'
          · exact Or.inl h'
          · exact Or.inr (Or.inr h')

lemma nodup_mapSet {k : String} {v : Client} {m : List (String × Client)}
    (h : (subKeys m).Nodup) : (subKeys (mapSet k v m)).Nodup := by
  induction m with
  | nil => simp [mapSet, subKeys]
  | cons p rest ih =>
      obtain ⟨k', v'⟩ := p
      simp only [subKeys, List.map_cons, List.nodup_cons] at h
      by_cases hk : k' = k
      · subst hk
        simpa [mapSet, subKeys] using h
      · simp only [mapSet, hk, if_false, subKeys, List.map_cons, List.nodup_cons]
        refine ⟨fun hmem => ?_, ih h.2⟩
        rcases mem_subKeys_mapSet hmem with h' | h'
        · exact hk h'
        · exact h.1 h'

lemma subKeys_mapUpdate (k : String) (f : Client → Client) (m : List (String × Client)) :
    subKeys (mapUpdate k f m) = subKeys m := by
  induction m with
  | nil => rfl
  | cons p rest ih =>
      obtain ⟨k', v⟩ := p
      by_cases hk : k' = k
      · simp [mapUpdate, hk, subKeys]
      · simp only [mapUpdate, hk, if_false, subKeys, List.map_cons] at ih ⊢
        rw [ih]

lemma subKeys_mapDelete_sublist (k : String) (m : List (String × Client)) :
    List.Sublist (subKeys (mapDelete k m)) (subKeys m) := by
  induction m with
  | nil => simp [mapDelete, subKeys]
  | cons p rest ih =>
      obtain ⟨k', v⟩ := p
      by_cases hk : k' = k
      · simp [mapDelete, hk, subKeys]
      · simp only [mapDelete, hk, if_false, subKeys, List.map_cons]
        exact ih.cons₂ k'

lemma nodup_mapDelete {k : String} {m : List (String × Client)}
    (h : (subKeys m).Nodup) : (subKeys (mapDelete k m)).Nodup :=
  h.sublist (subKeys_mapDelete_sublist k m)

lemma mapGet_mapSet (k : String) (v : Client) (m : List (String × Client)) :
    mapGet k (mapSet k v m) = some v := by
  induction m with
  | nil => simp [mapSet, mapGet]
  | cons p rest ih =>
      obtain ⟨k', v'⟩ := p
      by_cases hk : k' = k
      · simp [mapSet, hk, mapGet]
      · simp [mapSet, hk, mapGet, ih]

lemma bridgeStep_nodup (e : BridgeEvent) (s : BridgeState)
    (h : (subKeys s.subscribers).Nodup) :
    (subKeys (bridgeStep e s).subscribers).Nodup := by
  cases e with
  | message conn now msg =>
      cases msg with
      | register cid pp pn tty pid => exact nodup_mapSet h
      | heartbeat cid => simpa [bridgeStep, onSubMessage, subKeys_mapUpdate] using h
      | malformed => exact h
      | other => exact h
  | closeConn conn =>
      simp only [bridgeStep, onSubClose]
      cases hl : s.locals conn with
      | none => exact h
      | some cid =>
          by_cases hc : cid ≠ "" ∧ (mapGet cid s.subscribers).isSome
          · simpa [hc] using nodup_mapDelete h
          · simpa [hc] using h

lemma bridgeRun_nodup (evs : List BridgeEvent) (s : BridgeState)
    (h : (subKeys s.subscribers).Nodup) :
    (subKeys (bridgeRun evs s).subscribers).Nodup := by
  induction evs generalizing s with
  | nil => exact h
  | cons e rest ih => exact ih (bridgeStep e s) (bridgeStep_nodup e s h)

/-- One router observation written to stdout by `selectTargetClient`
(`server.js`): a route announcement or a decline reason. The empty-registry
branch returns without writing anything, so it has no constructor here. -/
inductive RouteLog where
  | routedSingle (name : String)
  | routedFocus (name : String)
  | routedHeartbeat (name : String)
  | routedConflict (n : Nat)
  | routedStale
deriving DecidableEq, Repr

/-- The focus-match loop of `selectTargetClient`: first client whose
`projectPath` (checked first) or `tty` is truthy and occurs in the probed
window title. -/
def findFocus (w : String) : List Client → Option Client
  | [] => none
  | c :: rest =>
      if c.projectPath ≠ "" ∧ jsIncludes w c.projectPath then some c
      else if c.tty ≠ "" ∧ jsIncludes w c.tty then some c
      else findFocus w rest

/-- The focus probe as consulted by `selectTargetClient`: `detectActiveTTY`
yields `none` on failure/timeout, and the `if (activeWindow)` truthiness
guard also discards an empty title. -/
def focusProbeHit (w : Option String) (subs : List Client) : Option Client :=
  match w with
  | none => none
  | some t => if t = "" then none else findFocus t subs

/-- The freshness subset: clients whose heartbeat is strictly within
3000 ms of `now` (`now - c.lastHeartbeat < 3000`). -/
def freshFilter (now : Int) (subs : List Client) : List Client :=
  subs.filter (fun c => now - c.lastHeartbeat < 3000)

/-- `selectTargetClient` of `server.js`, as a pure decision function over the
registry snapshot (in Map iteration order), the probe outcome, and
`Date.now()`. Returns the chosen client and the router log lines written. -/
def selectTargetClient (subs : List Client) (activeWindow : Option String) (now : Int) :
    Option Client × List RouteLog :=
  match subs with
  | [] => (none, [])
  | [c] => (some c, [.routedSingle c.projectName])
  | a :: b :: rest =>
      match focusProbeHit activeWindow (a :: b :: rest) with
      | some c => (some c, [.routedFocus c.projectName])
      | none =>
          match freshFilter now (a :: b :: rest) with
          | [c] => (some c, [.routedHeartbeat c.projectName])
          | [] => (none, [.routedStale])
          | c1 :: c2 :: cs => (none, [.routedConflict (c1 :: c2 :: cs).length])

/-- Probe yields no matching listener: probe failed/empty, or no record's
truthy `projectPath`/`tty` occurs in the window title. -/
def probeNoMatch (w : Option String) (subs : List Client) : Bool :=
  match w with
  | none => true
  | some t => decide (t = "") || (findFocus t subs).isNone

/-- The forwarding step of `handleBrowserConnection`: deliver to the selected
target's transport only when that transport's readyState is 1 (OPEN);
otherwise the event is dropped. Returns the transport delivered to. -/
def forwardToTarget (target : Option Client) (ready : Nat → Nat) : Option Nat :=
  match target with
  | some c => if ready c.ws = 1 then some c.ws else none
  | none => none

/-- Outcome of binding one port (`tryPort` of `server.js`). -/
inductive PortOutcome where
  | listening
  | addrInUse
  | otherFail
deriving DecidableEq, Repr

/-- Startup error of `createServer`. -/
inductive SrvError where
  | addrInUse (port : Nat)
  | otherErr (port : Nat)
  | noPort
deriving DecidableEq, Repr

/-- The retry loop of `createServer`: `n` attempts left at port `p`,
carrying the last EADDRINUSE error; returns the result and the list of ports
actually tried. -/
def csLoop (avail : Nat → PortOutcome) : Nat → Nat → Option SrvError →
    Except SrvError Nat × List Nat
  | 0, _, lastErr => (.error (lastErr.getD .noPort), [])
  | n + 1, p, _ =>
      match avail p with
      | .listening => (.ok p, [p])
      | .addrInUse =>
          let r := csLoop avail n (p + 1) (some (.addrInUse p))
          (r.1, p :: r.2)
      | .otherFail => (.error (.otherErr p), [p])

/-- `createServer(port)` of `server.js`: up to 3 attempts at
`port`, `port+1`, `port+2`; rethrows the last EADDRINUSE after exhaustion. -/
def createServer (avail : Nat → PortOutcome) (port : Nat) :
    Except SrvError Nat × List Nat :=
  csLoop avail 3 port none

/-- The `main().catch` wrapper of `server.js`: a startup failure exits the
process with status 1, success runs with status 0. -/
def mainExitCode (avail : Nat → PortOutcome) (port : Nat) : Nat :=
  match (createServer avail port).1 with
  | .ok _ => 0
  | .error _ => 1

/-- Connection phase of the userscript `State.connectionState`. -/
inductive CState where
  | disconnected
  | connecting
  | connected
deriving DecidableEq, Repr

/-- State of the userscript `Transport` module plus its `State.connectionState`:
`reconnectTimer` is the pending setTimeout delay (none = no live timer),
`wsCreated` counts WebSocket constructions, `scheduledDelays` logs every delay
passed to setTimeout by `scheduleReconnect`. -/
structure TpState where
  connectionState : CState
  hasWs : Bool
  reconnectAttempts : Nat
  reconnectTimer : Option Nat
  isManualClose : Bool
  isReconnecting : Bool
  wsCreated : Nat
  scheduledDelays : List Nat
deriving DecidableEq, Repr

/-- Initial userscript transport state. -/
def tpInit : TpState :=
  { connectionState := .disconnected, hasWs := false, reconnectAttempts := 0
    reconnectTimer := none, isManualClose := false, isReconnecting := false
    wsCreated := 0, scheduledDelays := [] }

namespace Transport

/-- `Config.RETRY_INTERVAL` of the userscript. -/
def RETRY_INTERVAL : Nat := 3000

/-- `Config.MAX_RETRIES` of the userscript. -/
def MAX_RETRIES : Nat := 5

/-- `Transport.resetReconnect`: zero the attempt counter, clear the
reconnecting flag and any pending timer. -/
def resetReconnect (s : TpState) : TpState :=
  { s with reconnectAttempts := 0, isReconnecting := false, reconnectTimer := none }

/-- `Transport.scheduleReconnect`: no-op once `MAX_RETRIES` attempts are
used; otherwise clear any pending timer and schedule a new one with delay
`RETRY_INTERVAL * 2 ^ reconnectAttempts`, incrementing the counter. -/
def scheduleReconnect (s : TpState) : TpState :=
  if MAX_RETRIES ≤ s.reconnectAttempts then s
  else
    let delay := RETRY_INTERVAL * 2 ^ s.reconnectAttempts
    { s with reconnectTimer := some delay
             reconnectAttempts := s.reconnectAttempts + 1
             scheduledDelays := s.scheduledDelays ++ [delay] }

/-- `Transport.connect`: guarded no-op unless DISCONNECTED; clears
`isManualClose`, moves to CONNECTING, then constructs the WebSocket —
`ctorOk = false` models the constructor throwing, which falls back to
DISCONNECTED and an immediate `scheduleReconnect`. -/
def connect (ctorOk : Bool) (s : TpState) : TpState :=
  if s.connectionState ≠ CState.disconnected then s
  else
    let s1 := { s with isManualClose := false, connectionState := CState.connecting }
    if ctorOk then { s1 with hasWs := true, wsCreated := s1.wsCreated + 1 }
    else scheduleReconnect { s1 with connectionState := CState.disconnected }

/-- The `open` listener: CONNECTED, then `resetReconnect`. -/
def onOpen (s : TpState) : TpState :=
  resetReconnect { s with connectionState := CState.connected }

/-- The `close` listener: null the socket, DISCONNECTED, and only when
neither `isManualClose` nor `isReconnecting` holds, raise `isReconnecting`
and schedule a reconnect. -/
def onClose (s : TpState) : TpState :=
  let s1 := { s with hasWs := false, connectionState := CState.disconnected }
  if !s1.isManualClose && !s1.isReconnecting then
    scheduleReconnect { s1 with isReconnecting := true }
  else s1

/-- The reconnect setTimeout callback firing: only meaningful while a timer
is pending; it calls `connect`. -/
def timerFire (ctorOk : Bool) (s : TpState) : TpState :=
  match s.reconnectTimer with
  | none => s
  | some _ => connect ctorOk { s with reconnectTimer := none }

/-- `Transport.disconnect`: raise `isManualClose`, clear any pending timer,
close and null the socket, DISCONNECTED. -/
def disconnect (s : TpState) : TpState :=
  { s with isManualClose := true, reconnectTimer := none, hasWs := false
           connectionState := CState.disconnected }

end Transport

/-- An observable event at the userscript transport endpoint. -/
inductive TpEvent where
  | connectCall (ctorOk : Bool)
  | openEvt
  | closeEvt
  | timerFire (ctorOk : Bool)
  | disconnectCall
deriving DecidableEq, Repr

/-- One producer-side step. -/
def tpStep : TpEvent → TpState → TpState
  | .connectCall b, s => Transport.connect b s
  | .openEvt, s => Transport.onOpen s
  | .closeEvt, s => Transport.onClose s
  | .timerFire b, s => Transport.timerFire b s
  | .disconnectCall, s => Transport.disconnect s

/-- Run a sequence of producer-side events. -/
def tpRun (evs : List TpEvent) (s : TpState) : TpState :=
  evs.foldl (fun st e => tpStep e st) s

/-- `true` for every event that is not a `connect()` call. -/
def tpNonConnectEvent : TpEvent → Bool
  | .connectCall _ => false
  | _ => true

/-- State of `mcp-server.mjs` connection management: `reconnectDelay` is the
module-level backoff variable, `wsOpenCount` counts WebSocket constructions
by `connectToBridge`, `scheduledDelays` logs the delay of every reconnect
actually scheduled. -/
structure McpState where
  reconnectDelay : Nat
  isShuttingDown : Bool
  heartbeatOn : Bool
  hasConn : Bool
  connOpen : Bool
  wsOpenCount : Nat
  scheduledDelays : List Nat
deriving DecidableEq, Repr

/-- Initial mcp-server state (`reconnectDelay = INITIAL_RECONNECT_DELAY`). -/
def mcpInit : McpState :=
  { reconnectDelay := 1000, isShuttingDown := false, heartbeatOn := false
    hasConn := false, connOpen := false, wsOpenCount := 0, scheduledDelays := [] }

namespace Mcp

/-- `INITIAL_RECONNECT_DELAY` of mcp-server. -/
def INITIAL_RECONNECT_DELAY : Nat := 1000

/-- `MAX_RECONNECT_DELAY` of mcp-server. -/
def MAX_RECONNECT_DELAY : Nat := 30000

/-- `connectToBridge`: returns early only when shutting down; otherwise it
unconditionally constructs a new WebSocket and overwrites `wsConnection` —
there is no phase guard. -/
def connectToBridge (s : McpState) : McpState :=
  if s.isShuttingDown then s
  else { s with hasConn := true, wsOpenCount := s.wsOpenCount + 1 }

/-- The `open` handler: reset `reconnectDelay` to the initial value,
register, start the heartbeat. -/
def onOpen (s : McpState) : McpState :=
  { s with reconnectDelay := INITIAL_RECONNECT_DELAY, heartbeatOn := true
           connOpen := true }

/-- `scheduleReconnect`: no-op when shutting down; otherwise schedule a
reconnect after the current `reconnectDelay`. -/
def scheduleReconnect (s : McpState) : McpState :=
  if s.isShuttingDown then s
  else { s with scheduledDelays := s.scheduledDelays ++ [s.reconnectDelay] }

/-- The `close` handler: when not shutting down, stop the heartbeat and
schedule a reconnect. -/
def onClose (s : McpState) : McpState :=
  if s.isShuttingDown then s
  else scheduleReconnect { s with heartbeatOn := false, connOpen := false }

/-- The reconnect setTimeout callback: double the delay (capped at
`MAX_RECONNECT_DELAY`), then `connectToBridge`. -/
def timerFire (s : McpState) : McpState :=
  connectToBridge { s with reconnectDelay := min (s.reconnectDelay * 2) MAX_RECONNECT_DELAY }

/-- `shutdown`: idempotent; raises `isShuttingDown`, stops the heartbeat,
closes and nulls the connection. -/
def shutdown (s : McpState) : McpState :=
  if s.isShuttingDown then s
  else { s with isShuttingDown := true, heartbeatOn := false
                hasConn := false, connOpen := false }

end Mcp

/-- An observable event at the mcp-server endpoint. -/
inductive McpEvent where
  | connectCall
  | openEvt
  | closeEvt
  | timerFire
  | shutdownCall
deriving DecidableEq, Repr

/-- One listener-side step. -/
def mcpStep : McpEvent → McpState → McpState
  | .connectCall, s => Mcp.connectToBridge s
  | .openEvt, s => Mcp.onOpen s
  | .closeEvt, s => Mcp.onClose s
  | .timerFire, s => Mcp.timerFire s
  | .shutdownCall, s => Mcp.shutdown s

/-- Run a sequence of listener-side events. -/
def mcpRun (evs : List McpEvent) (s : McpState) : McpState :=
  evs.foldl (fun st e => mcpStep e st) s

/-- C1: for every sequence of register/remove (and heartbeat/malformed)
operations on the subscriber registry, starting from the empty registry, the
registry never holds two records with the same clientId, and a register for
an already-present clientId replaces the record (last write wins): the
lookup after any register returns exactly the newly built record. -/
theorem c1_registry_unique_last_write_wins
    (evs : List BridgeEvent) (s : BridgeState) (conn : Nat) (now : Int)
    (cid pp pn tty : String) (pid : Nat) :
    (subKeys (bridgeRun evs bridgeInit).subscribers).Nodup ∧
    mapGet cid (onSubMessage conn now (.register cid pp pn tty pid) s).subscribers
      = some (mkRegClient conn pp pn tty pid now) := by
  constructor
  · exact bridgeRun_nodup evs bridgeInit (by simp [bridgeInit, subKeys])
  · simpa [onSubMessage] using
      mapGet_mapSet cid (mkRegClient conn pp pn tty pid now) s.subscribers

/-- C2: evaluation of the code at the failing scenario. Connection 1
registers clientId c1, connection 2 re-registers c1 (after which the
registry holds exactly one record for c1, bound to transport 2 — the first
half of the claim), and then connection 1's transport closes: the close
handler guard checks only that the key c1 is present, so it deletes the
record bound to transport 2 and the registry ends up empty, contradicting
the claim that a record is destroyed only when its own transport closes. -/
theorem c2_stale_close_deletes_new_registration :
    (bridgeRun
        [BridgeEvent.message 1 100 (.register "c1" "/proj/a" "A" "tty1" 11),
         BridgeEvent.message 2 200 (.register "c1" "/proj/b" "B" "tty2" 22)]
        bridgeInit).subscribers
      = [("c1", { ws := 2, projectPath := "/proj/b", projectName := "B",
                  tty := "tty2", pid := 22, lastHeartbeat := 200 })] ∧
    (onSubClose 1
        (bridgeRun
          [BridgeEvent.message 1 100 (.register "c1" "/proj/a" "A" "tty1" 11),
           BridgeEvent.message 2 200 (.register "c1" "/proj/b" "B" "tty2" 22)]
          bridgeInit)).subscribers = [] := by
  constructor <;> rfl

/-- C3: a snapshot with exactly one listener record is always routed to that
record, for every probe outcome and every heartbeat age; the probe input is
universally quantified and never examined in this branch. -/
theorem c3_single_listener_always_selected (c : Client) (w : Option String) (now : Int) :
    selectTargetClient [c] w now = (some c, [RouteLog.routedSingle c.projectName]) := rfl

lemma focusProbeHit_eq_none {w : Option String} {subs : List Client}
    (h : probeNoMatch w subs = true) : focusProbeHit w subs = none := by
  cases w with
  | none => rfl
  | some t =>
      simp only [probeNoMatch, Bool.or_eq_true, decide_eq_true_eq,
        Option.isNone_iff_eq_none] at h
      by_cases ht : t = ""
      · simp [focusProbeHit, ht]
      · rcases h with h | h
        · exact absurd h ht
        · simp [focusProbeHit, ht, h]

/-- C4: with at least two records, a probe that yields no matching listener,
and exactly one record with heartbeat age strictly under 3 seconds, the
arbitrator selects that record (and logs the heartbeat route). -/
theorem c4_unique_fresh_heartbeat_selected (subs : List Client) (w : Option String)
    (now : Int) (c : Client)
    (h2 : 2 ≤ subs.length)
    (hp : probeNoMatch w subs = true)
    (hf : freshFilter now subs = [c]) :
    selectTargetClient subs w now = (some c, [RouteLog.routedHeartbeat c.projectName]) := by
  rcases subs with _ | ⟨a, _ | ⟨b, rest⟩⟩
  · simp at h2
  · simp at h2
  · have hfocus := focusProbeHit_eq_none hp
    simp [selectTargetClient, hfocus, hf]

/-- Sample fresh-heartbeat client for witnesses. -/
def demoClientA : Client :=
  { ws := 1, projectPath := "/proj/a", projectName := "A", tty := "ttyA"
    pid := 1, lastHeartbeat := 10000 }

/-- Sample stale-heartbeat client for witnesses. -/
def demoClientB : Client :=
  { ws := 2, projectPath := "/proj/b", projectName := "B", tty := "ttyB"
    pid := 2, lastHeartbeat := 0 }

/-- C4 witness: two registered clients, probe unavailable, only client A
fresh at now = 10500; the arbitrator picks A. -/
theorem c4_unique_fresh_heartbeat_selected_witness :
    (2 ≤ ([demoClientA, demoClientB] : List Client).length ∧
     probeNoMatch none [demoClientA, demoClientB] = true ∧
     freshFilter 10500 [demoClientA, demoClientB] = [demoClientA]) ∧
    selectTargetClient [demoClientA, demoClientB] none 10500
      = (some demoClientA, [RouteLog.routedHeartbeat demoClientA.projectName]) :=
  ⟨⟨by decide, rfl, by decide⟩,
    c4_unique_fresh_heartbeat_selected [demoClientA, demoClientB] none 10500
      demoClientA (by decide) rfl (by decide)⟩

/-- C5 counterexample: with an empty registry the arbitrator returns
immediately, emitting no router log line at all — there is no decline reason
emitted, so in particular no "no listeners" reason, contrary to the claim. -/
theorem c5_empty_registry_silent_decline :
    selectTargetClient [] (some "Ghostty - /proj/a") 0 = (none, []) := rfl

/-- C5 (amended): whenever the arbitrator declines, the browser dispatch
forwards to nobody (the event is dropped; all functions are total, so no
crash), and the emitted reason is: nothing at all when the registry is empty,
the stale/timeout line when no listener is fresh, and the conflict line when
at least two listeners are fresh — the conflict and timeout cases only arise
with at least two records and an unmatched probe. -/
theorem c5_decline_reasons_amended (subs : List Client) (w : Option String) (now : Int)
    (ready : Nat → Nat)
    (hdecl : (selectTargetClient subs w now).1 = none) :
    forwardToTarget (selectTargetClient subs w now).1 ready = none ∧
    ((subs = [] ∧ (selectTargetClient subs w now).2 = []) ∨
     (2 ≤ subs.length ∧ freshFilter now subs = [] ∧
        (selectTargetClient subs w now).2 = [RouteLog.routedStale]) ∨
     (2 ≤ subs.length ∧ 2 ≤ (freshFilter now subs).length ∧
        (selectTargetClient subs w now).2 =
          [RouteLog.routedConflict (freshFilter now subs).length])) := by
  refine ⟨by rw [hdecl]; rfl, ?_⟩
  rcases subs with _ | ⟨a, _ | ⟨b, rest⟩⟩
  · exact Or.inl ⟨rfl, rfl⟩
  · simp [selectTargetClient] at hdecl
  · cases hfoc : focusProbeHit w (a :: b :: rest) with
    | some c => simp [selectTargetClient, hfoc] at hdecl
    | none =>
        cases hfre : freshFilter now (a :: b :: rest) with
        | nil =>
            refine Or.inr (Or.inl ⟨by simp, rfl, ?_⟩)
            simp [selectTargetClient, hfoc, hfre]
        | cons c1 cs =>
            cases cs with
            | nil => simp [selectTargetClient, hfoc, hfre] at hdecl
            | cons c2 cs2 =>
                refine Or.inr (Or.inr ⟨by simp, by simp, ?_⟩)
                simp [selectTargetClient, hfoc, hfre]

/-- C5 witness: zero listeners registered, a producer event arrives: no
delivery, no crash, and the decline is silent. -/
theorem c5_decline_reasons_amended_witness :
    ((selectTargetClient [] none 0).1 = none) ∧
    (forwardToTarget (selectTargetClient [] none 0).1 (fun _ => 1) = none ∧
     ((([] : List Client) = [] ∧ (selectTargetClient [] none 0).2 = []) ∨
      (2 ≤ ([] : List Client).length ∧ freshFilter 0 [] = [] ∧
         (selectTargetClient [] none 0).2 = [RouteLog.routedStale]) ∨
      (2 ≤ ([] : List Client).length ∧ 2 ≤ (freshFilter 0 []).length ∧
         (selectTargetClient [] none 0).2 =
           [RouteLog.routedConflict (freshFilter 0 []).length]))) :=
  ⟨rfl, c5_decline_reasons_amended [] none 0 (fun _ => 1) rfl⟩

/-- C6: evaluation of the producer (userscript) code at the failing input.
Two consecutive failed connection attempts: connect, transport closes
(first failure — one reconnect scheduled at the initial delay 3000 ms), the
timer fires and reconnects, the transport closes again (second failure).
The claim requires the scheduled-delay sequence d, 2d = 3000, 6000; the code
schedules only [3000] and leaves no pending timer, because `isReconnecting`
was raised on the first close and is cleared only by a successful open, so
the second close's guard rejects any further scheduling. -/
theorem c6_producer_backoff_stalls_after_first_retry :
    (tpRun [TpEvent.connectCall true, TpEvent.closeEvt,
            TpEvent.timerFire true, TpEvent.closeEvt] tpInit).scheduledDelays
      = [3000] ∧
    (tpRun [TpEvent.connectCall true, TpEvent.closeEvt,
            TpEvent.timerFire true, TpEvent.closeEvt] tpInit).reconnectTimer
      = none := by
  constructor <;> rfl

lemma tpStep_after_disconnect {e : TpEvent} {s : TpState}
    (he : tpNonConnectEvent e = true)
    (hm : s.isManualClose = true) (ht : s.reconnectTimer = none) :
    (tpStep e s).isManualClose = true ∧ (tpStep e s).reconnectTimer = none ∧
    (tpStep e s).scheduledDelays = s.scheduledDelays := by
  cases e with
  | connectCall b => simp [tpNonConnectEvent] at he
  | openEvt => simp [tpStep, Transport.onOpen, Transport.resetReconnect, hm]
  | closeEvt => simp [tpStep, Transport.onClose, hm, ht]
  | timerFire b => simp [tpStep, Transport.timerFire, hm, ht]
  | disconnectCall => simp [tpStep, Transport.disconnect]

lemma tpRun_after_disconnect (evs : List TpEvent) (s : TpState)
    (hevs : evs.all tpNonConnectEvent = true)
    (hm : s.isManualClose = true) (ht : s.reconnectTimer = none) :
    (tpRun evs s).scheduledDelays = s.scheduledDelays := by
  induction evs generalizing s with
  | nil => rfl
  | cons e rest ih =>
      simp only [List.all_cons, Bool.and_eq_true] at hevs
      obtain ⟨h1, h2, h3⟩ := tpStep_after_disconnect hevs.1 hm ht
      calc (tpRun (e :: rest) s).scheduledDelays
          = (tpRun rest (tpStep e s)).scheduledDelays := rfl
        _ = (tpStep e s).scheduledDelays := ih (tpStep e s) hevs.2 h1 h2
        _ = s.scheduledDelays := h3

lemma mcpStep_shutdown {e : McpEvent} {s : McpState}
    (hs : s.isShuttingDown = true) :
    (mcpStep e s).isShuttingDown = true ∧
    (mcpStep e s).scheduledDelays = s.scheduledDelays := by
  cases e with
  | connectCall => simp [mcpStep, Mcp.connectToBridge, hs]
  | openEvt => simp [mcpStep, Mcp.onOpen, hs]
  | closeEvt => simp [mcpStep, Mcp.onClose, hs]
  | timerFire => simp [mcpStep, Mcp.timerFire, Mcp.connectToBridge, hs]
  | shutdownCall => simp [mcpStep, Mcp.shutdown, hs]

lemma mcpRun_shutdown (evs : List McpEvent) (s : McpState)
    (hs : s.isShuttingDown = true) :
    (mcpRun evs s).scheduledDelays = s.scheduledDelays := by
  induction evs generalizing s with
  | nil => rfl
  | cons e rest ih =>
      obtain ⟨h1, h2⟩ := mcpStep_shutdown (e := e) hs
      calc (mcpRun (e :: rest) s).scheduledDelays
          = (mcpRun rest (mcpStep e s)).scheduledDelays := rfl
        _ = (mcpStep e s).scheduledDelays := ih (mcpStep e s) h1
        _ = s.scheduledDelays := h2

lemma mcp_shutdown_flag (m : McpState) : (Mcp.shutdown m).isShuttingDown = true := by
  unfold Mcp.shutdown
  split
  · assumption
  · rfl

/-- C7: once `disconnect()` has run on the producer side, any later sequence
of transport events that does not contain a fresh `connect()` call schedules
no reconnect (the scheduled-delay log never grows); once `shutdown()` has run
on the listener side, no later event sequence whatsoever schedules a
reconnect, since the shutting-down flag is permanent there. -/
theorem c7_no_reconnect_after_disconnect
    (s : TpState) (evs : List TpEvent) (m : McpState) (mevs : List McpEvent)
    (hevs : evs.all tpNonConnectEvent = true) :
    (tpRun evs (Transport.disconnect s)).scheduledDelays
        = (Transport.disconnect s).scheduledDelays ∧
    (mcpRun mevs (Mcp.shutdown m)).scheduledDelays
        = (Mcp.shutdown m).scheduledDelays := by
  constructor
  · exact tpRun_after_disconnect evs _ hevs rfl rfl
  · exact mcpRun_shutdown mevs _ (mcp_shutdown_flag m)

/-- C7 witness: after disconnect/shutdown, a close event, a (dead) timer
fire, and more transport traffic schedule nothing on either side. -/
theorem c7_no_reconnect_after_disconnect_witness :
    ([TpEvent.closeEvt, TpEvent.timerFire true, TpEvent.openEvt,
      TpEvent.closeEvt].all tpNonConnectEvent = true) ∧
    ((tpRun [TpEvent.closeEvt, TpEvent.timerFire true, TpEvent.openEvt,
             TpEvent.closeEvt] (Transport.disconnect tpInit)).scheduledDelays
        = (Transport.disconnect tpInit).scheduledDelays ∧
     (mcpRun [McpEvent.closeEvt, McpEvent.timerFire, McpEvent.connectCall,
              McpEvent.closeEvt] (Mcp.shutdown mcpInit)).scheduledDelays
        = (Mcp.shutdown mcpInit).scheduledDelays) :=
  ⟨by decide,
   c7_no_reconnect_after_disconnect tpInit
     [TpEvent.closeEvt, TpEvent.timerFire true, TpEvent.openEvt, TpEvent.closeEvt]
     mcpInit
     [McpEvent.closeEvt, McpEvent.timerFire, McpEvent.connectCall, McpEvent.closeEvt]
     (by decide)⟩

/-- C8 counterexample: on the listener (mcp-server) side, with the endpoint
connected (after connect and open) and not shutting down, a further
`connectToBridge()` call is not a no-op: it constructs one more WebSocket
(the transport counter increments), refuting the claim that connect while
CONNECTED is a silent no-op opening no new transport on both sides. -/
theorem c8_mcp_connect_not_idempotent :
    ((Mcp.onOpen (Mcp.connectToBridge mcpInit)).connOpen = true ∧
     (Mcp.onOpen (Mcp.connectToBridge mcpInit)).isShuttingDown = false) ∧
    (Mcp.connectToBridge (Mcp.onOpen (Mcp.connectToBridge mcpInit))).wsOpenCount
      = (Mcp.onOpen (Mcp.connectToBridge mcpInit)).wsOpenCount + 1 := by
  constructor
  · constructor <;> rfl
  · rfl

/-- C8 (amended): on the producer (userscript) side, `connect()` while
CONNECTING or CONNECTED is a silent no-op — the state is returned unchanged,
so no transport is opened; on the listener (mcp-server) side there is no
phase guard: whenever the endpoint is not shutting down, `connectToBridge()`
opens one more transport, even while already connected. -/
theorem c8_connect_idempotency_amended (s : TpState) (b : Bool) (m : McpState)
    (hs : s.connectionState = CState.connecting ∨ s.connectionState = CState.connected)
    (hm : m.isShuttingDown = false) :
    Transport.connect b s = s ∧
    (Mcp.connectToBridge m).wsOpenCount = m.wsOpenCount + 1 := by
  constructor
  · unfold Transport.connect
    rcases hs with h | h <;> simp [h]
  · simp [Mcp.connectToBridge, hm]

/-- C8 witness: a producer endpoint in CONNECTING and the fresh listener
endpoint (not shutting down). -/
theorem c8_connect_idempotency_amended_witness :
    (((Transport.connect true tpInit).connectionState = CState.connecting ∨
      (Transport.connect true tpInit).connectionState = CState.connected) ∧
     mcpInit.isShuttingDown = false) ∧
    (Transport.connect false (Transport.connect true tpInit)
        = Transport.connect true tpInit ∧
     (Mcp.connectToBridge mcpInit).wsOpenCount = mcpInit.wsOpenCount + 1) :=
  ⟨⟨Or.inl rfl, rfl⟩,
   c8_connect_idempotency_amended (Transport.connect true tpInit) false mcpInit
     (Or.inl rfl) rfl⟩

lemma csLoop_succ_inUse (avail : Nat → PortOutcome) (n p : Nat) (le : Option SrvError)
    (h : avail p = PortOutcome.addrInUse) :
    csLoop avail (n + 1) p le =
      ((csLoop avail n (p + 1) (some (SrvError.addrInUse p))).1,
       p :: (csLoop avail n (p + 1) (some (SrvError.addrInUse p))).2) := by
  simp [csLoop, h]

/-- C9: when the requested port and its two successors are all already
bound, startup tries exactly the three ports port, port+1, port+2, fails
with the last address-in-use error, and the process exits with status 1. -/
theorem c9_port_retry_ceiling (avail : Nat → PortOutcome) (port : Nat)
    (h : ∀ i, i < 3 → avail (port + i) = PortOutcome.addrInUse) :
    createServer avail port
        = (Except.error (SrvError.addrInUse (port + 2)), [port, port + 1, port + 2]) ∧
    mainExitCode avail port = 1 := by
  have h0 : avail port = PortOutcome.addrInUse := by simpa using h 0 (by omega)
  have h1 : avail (port + 1) = PortOutcome.addrInUse := h 1 (by omega)
  have h2 : avail (port + 1 + 1) = PortOutcome.addrInUse := by
    simpa [Nat.add_assoc] using h 2 (by omega)
  have hcs : createServer avail port
      = (Except.error (SrvError.addrInUse (port + 2)), [port, port + 1, port + 2]) := by
    unfold createServer
    rw [show (3 : Nat) = 2 + 1 from rfl, csLoop_succ_inUse _ _ _ _ h0,
        show (2 : Nat) = 1 + 1 from rfl, csLoop_succ_inUse _ _ _ _ h1,
        show (1 : Nat) = 0 + 1 from rfl, csLoop_succ_inUse _ _ _ _ h2]
    simp [csLoop, Nat.add_assoc]
  exact ⟨hcs, by simp [mainExitCode, hcs]⟩

/-- C9 witness: every port in use; startup at the default port 51765 tries
51765, 51766, 51767, fails, and exits non-zero. -/
theorem c9_port_retry_ceiling_witness :
    (∀ i, i < 3 → (fun _ => PortOutcome.addrInUse) (51765 + i) = PortOutcome.addrInUse) ∧
    (createServer (fun _ => PortOutcome.addrInUse) 51765
        = (Except.error (SrvError.addrInUse 51767), [51765, 51766, 51767]) ∧
     mainExitCode (fun _ => PortOutcome.addrInUse) 51765 = 1) :=
  ⟨fun _ _ => rfl,
   c9_port_retry_ceiling (fun _ => PortOutcome.addrInUse) 51765 (fun _ _ => rfl)⟩

/-- `true` for every subscriber-endpoint event that is not a successfully
parsed register message on connection `conn`. -/
def noRegisterFrom (conn : Nat) : BridgeEvent → Bool
  | .message c _ (SubMsg.register _ _ _ _ _) => decide (c ≠ conn)
  | _ => true

lemma bridgeStep_locals_none {conn : Nat} {e : BridgeEvent} {s : BridgeState}
    (hs : s.locals conn = none) (he : noRegisterFrom conn e = true) :
    (bridgeStep e s).locals conn = none := by
  cases e with
  | message c now m =>
      cases m with
      | register cid pp pn tty pid =>
          simp only [noRegisterFrom, decide_eq_true_eq] at he
          simp only [bridgeStep, onSubMessage]
          rw [if_neg (fun hc => he hc.symm)]
          exact hs
      | heartbeat cid => exact hs
      | malformed => exact hs
      | other => exact hs
  | closeConn c =>
      simp only [bridgeStep, onSubClose]
      cases hl : s.locals c with
      | none => exact hs
      | some cid =>
          by_cases hc : cid ≠ "" ∧ (mapGet cid s.subscribers).isSome
          · simpa [hc] using hs
          · simpa [hc] using hs

lemma bridgeRun_locals_none {conn : Nat} (evs : List BridgeEvent) (s : BridgeState)
    (hs : s.locals conn = none) (hevs : evs.all (noRegisterFrom conn) = true) :
    (bridgeRun evs s).locals conn = none := by
  induction evs generalizing s with
  | nil => exact hs
  | cons e rest ih =>
      simp only [List.all_cons, Bool.and_eq_true] at hevs
      exact ih (bridgeStep e s) (bridgeStep_locals_none hs hevs.1) hevs.2

/-- C10: a subscriber connection that never delivered a successfully parsed
register message (its connection-local clientId is still null, and the rest
of the traffic — heartbeats, malformed frames, registers on other
connections, other closures — cannot set it) has a close handler that is the
identity on the whole bridge state: nothing is added to or removed from the
registry, and the handler is a total function, so the relay cannot crash. -/
theorem c10_unregistered_close_is_frame (s : BridgeState) (conn : Nat)
    (evs : List BridgeEvent)
    (hs : s.locals conn = none)
    (hevs : evs.all (noRegisterFrom conn) = true) :
    onSubClose conn (bridgeRun evs s) = bridgeRun evs s := by
  have h := bridgeRun_locals_none evs s hs hevs
  simp [onSubClose, h]

/-- C10 witness: connection 1 sends a heartbeat and a malformed frame (no
register), another connection registers, a third closes; closing connection 1
then leaves the bridge state untouched. -/
theorem c10_unregistered_close_is_frame_witness :
    (bridgeInit.locals 1 = none ∧
     [BridgeEvent.message 1 50 (SubMsg.heartbeat "x"),
      BridgeEvent.message 2 60 (SubMsg.register "c9" "/p" "P" "t" 7),
      BridgeEvent.message 1 70 SubMsg.malformed,
      BridgeEvent.closeConn 3].all (noRegisterFrom 1) = true) ∧
    onSubClose 1
        (bridgeRun
          [BridgeEvent.message 1 50 (SubMsg.heartbeat "x"),
           BridgeEvent.message 2 60 (SubMsg.register "c9" "/p" "P" "t" 7),
           BridgeEvent.message 1 70 SubMsg.malformed,
           BridgeEvent.closeConn 3] bridgeInit)
      = bridgeRun
          [BridgeEvent.message 1 50 (SubMsg.heartbeat "x"),
           BridgeEvent.message 2 60 (SubMsg.register "c9" "/p" "P" "t" 7),
           BridgeEvent.message 1 70 SubMsg.malformed,
           BridgeEvent.closeConn 3] bridgeInit :=
  ⟨⟨rfl, by decide⟩,
   c10_unregistered_close_is_frame bridgeInit 1
     [BridgeEvent.message 1 50 (SubMsg.heartbeat "x"),
      BridgeEvent.message 2 60 (SubMsg.register "c9" "/p" "P" "t" 7),
      BridgeEvent.message 1 70 SubMsg.malformed,
      BridgeEvent.closeConn 3] rfl (by decide)⟩
